import Mathlib

/-!
Shallow embedding of `ctlearn/utils.py` (functions `setup_DL1DataReader` and
`load_from_module`) and verification of its configuration-resolution behaviour.

Python dictionaries are modelled as structures whose fields are `Option`-valued
(a `none` field is an absent key); keys whose value changes type during the run
(`file_list`, `event_selection`, `image_selection`, `transforms`) get a small
union type.  The file system is a function from paths to the list of lines of
the file (or `none` when the file does not exist), the import machinery is an
`ImportEnv` listing the importable modules and their attributes, and `sys.path`
is threaded through explicitly.  Python exceptions become `Except PyError`.
-/

/-- Primitive Python values appearing in filter/transform argument dicts. -/
inductive PVal where
  | str (s : String)
  | bool (b : Bool)
  | int (n : Int)
deriving DecidableEq, Repr

/-- A Python keyword-argument dict, as an insertion-ordered association list. -/
abbrev Params := List (String × PVal)

/-- The object obtained as attribute `attr` of module `mdl`: the model of what
`getattr(importlib.import_module(module), name)` returns. -/
structure Fn where
  mdl : String
  attr : String
deriving DecidableEq, Repr

/-- Python exceptions raised on the modelled code paths of `utils.py`. -/
inductive PyError where
  | valueError
  | keyError (k : String)
  | fileNotFoundError (p : String)
  | moduleNotFoundError (m : String)
  | attributeError (m a : String)
  | typeError
deriving DecidableEq, Repr

/-- The import environment: which modules can be imported and which
(module, attribute) pairs exist.  This models `importlib` and `getattr`. -/
structure ImportEnv where
  modules : List String
  attrs : List Fn
deriving DecidableEq, Repr

/-- `load_from_module(name, module, path=None, args=None)` (utils.py lines
156-162): when `path` is given and not already in `sys.path` it is appended;
the module is imported and the attribute looked up (failures raise); the
result is returned with `args`, defaulting to the empty dict. -/
def load_from_module (env : ImportEnv) (sysPath : List String)
    (name mdl : String) (path : Option String) (args : Option Params) :
    Except PyError (Fn × Params × List String) :=
  if mdl ∈ env.modules then
    if (⟨mdl, name⟩ : Fn) ∈ env.attrs then
      Except.ok (⟨mdl, name⟩, args.getD [],
        match path with
        | some p => if p ∈ sysPath then sysPath else sysPath ++ [p]
        | none => sysPath)
    else
      Except.error (PyError.attributeError mdl name)
  else
    Except.error (PyError.moduleNotFoundError mdl)

/-- The possible values of `config['Data']['file_list']`: a string, a list of
strings, or anything else (`other`). -/
inductive FileListVal where
  | str (s : String)
  | list (l : List String)
  | other
deriving DecidableEq, Repr

/-- One entry of `event_selection` / `image_selection`: a dict with a `name`
key and optional `module`, `path` and `args` keys, unpacked into
`load_from_module(**s)` after defaulting `module`. -/
structure FilterSpec where
  name : String
  mdl : Option String
  path : Option String
  args : Option Params
deriving DecidableEq, Repr

/-- One entry of the `transformations` list: a dict with a `name` key and
optional `module`, `path` and `args` keys. -/
structure TransformSpec where
  name : String
  mdl : Option String
  path : Option String
  args : Option Params
deriving DecidableEq, Repr

/-- An instantiated transform object `transform(**args)`: the loaded class
together with the keyword arguments it was constructed with. -/
structure TransObj where
  cls : Fn
  args : Params
deriving DecidableEq, Repr

/-- Value of the `event_selection` / `image_selection` key: on input a list of
spec dicts, after parsing a dict mapping loaded functions to their params. -/
inductive SelectionVal where
  | specs (l : List FilterSpec)
  | table (d : List (Fn × Params))
deriving DecidableEq, Repr

/-- Value of the `transforms` key: on input a list of spec dicts, on output
the list of instantiated transform objects. -/
inductive TransformsVal where
  | specs (l : List TransformSpec)
  | objs (l : List TransObj)
deriving DecidableEq, Repr

/-- A value of `interpolation_image_shape`: a Python list or tuple of ints. -/
inductive ShapeVal where
  | list (l : List Int)
  | tuple (l : List Int)
deriving DecidableEq, Repr

/-- The elements of a `ShapeVal`, in order (what `tuple(l)` iterates over). -/
def ShapeVal.toList : ShapeVal → List Int
  | .list l => l
  | .tuple l => l

/-- `config['Data']['mapping_settings']`: the `interpolation_image_shape`
entry (a dict from camera names to shapes) plus all other entries, which the
code never touches. -/
structure MappingSettings where
  interpolation_image_shape : Option (List (String × ShapeVal))
  others : List (String × PVal)
deriving DecidableEq, Repr

/-- `config['Data']`, with one field per key the code reads or writes. -/
structure DataConfig where
  file_list : Option FileListVal
  allow_overwrite : Option Bool
  event_selection : Option SelectionVal
  image_selection : Option SelectionVal
  event_info : Option (List String)
  array_info : Option (List String)
  transforms : Option TransformsVal
  mapping_settings : Option MappingSettings
  mode : Option String
deriving DecidableEq, Repr

/-- `config['Prediction']`. -/
structure PredictionConfig where
  prediction_file_lists : List (String × String)
  prediction_label : String
  save_identifiers : Option Bool
deriving DecidableEq, Repr

/-- The top-level `config` dict. -/
structure Config where
  Data : DataConfig
  Data_format : Option String
  Tasks : Option (List String)
  Prediction : Option PredictionConfig
deriving DecidableEq, Repr

/-- Python `str.strip()`: remove whitespace from both ends of the string. -/
def pyStrip (s : String) : String :=
  ⟨((s.data.dropWhile Char.isWhitespace).reverse.dropWhile Char.isWhitespace).reverse⟩

/-- Python `str.endswith(suffix)`. -/
def pyEndsWith (s suffix : String) : Bool :=
  suffix.data.isSuffixOf s.data

/-- Reading a newline-delimited file list (utils.py lines 48-52 and 61-65):
each line is stripped; a line is kept when it is non-empty and its first
character is not the comment marker, in file order. -/
def parseFileListLines (lines : List String) : List String :=
  (lines.map pyStrip).filter (fun l => !l.isEmpty && l.front != '#')

/-- Python dict assignment `d[k] = v` on an insertion-ordered dict:
overwrites in place when the key exists, appends otherwise. -/
def dictInsert (d : List (Fn × Params)) (k : Fn) (v : Params) :
    List (Fn × Params) :=
  if d.any (fun p => p.1 == k) then
    d.map (fun p => if p.1 == k then (k, v) else p)
  else
    d ++ [(k, v)]

/-- The filter-parsing loops of `setup_DL1DataReader` (lines 83-87 and 91-94):
each spec is completed with default module `dl1_data_handler.filters`, loaded
with `load_from_module`, and entered into the selection dict. -/
def loadFilters (env : ImportEnv) :
    List String → List FilterSpec → List (Fn × Params) →
    Except PyError (List (Fn × Params) × List String)
  | sysPath, [], acc => Except.ok (acc, sysPath)
  | sysPath, s :: rest, acc =>
    match load_from_module env sysPath s.name
        (s.mdl.getD "dl1_data_handler.filters") s.path s.args with
    | Except.error e => Except.error e
    | Except.ok (fn, params, sysPath1) =>
      loadFilters env sysPath1 rest (dictInsert acc fn params)

/-- The transform-instantiation loop (lines 128-131): each entry is completed
with default module `dl1_data_handler.transforms`, loaded, instantiated with
its args, and appended in order. -/
def loadTransforms (env : ImportEnv) :
    List String → List TransformSpec → List TransObj →
    Except PyError (List TransObj × List String)
  | sysPath, [], acc => Except.ok (acc, sysPath)
  | sysPath, t :: rest, acc =>
    match load_from_module env sysPath t.name
        (t.mdl.getD "dl1_data_handler.transforms") t.path t.args with
    | Except.error e => Except.error e
    | Except.ok (fn, args, sysPath1) =>
      loadTransforms env sysPath1 rest (acc ++ [⟨fn, args⟩])

/-- Task-derived event-info columns (utils.py lines 98-119). -/
def taskEventInfo (data_format : String) (tasks : List String) : List String :=
  if data_format = "dl1dh" then
    (if "particletype" ∈ tasks then ["shower_primary_id"] else []) ++
    (if "energy" ∈ tasks then ["mc_energy"] else []) ++
    (if "direction" ∈ tasks then ["alt", "az"] else [])
  else
    (if "particletype" ∈ tasks then ["true_shower_primary_id"] else []) ++
    (if "energy" ∈ tasks then ["true_energy"] else []) ++
    (if "direction" ∈ tasks then ["true_alt", "true_az"] else [])

/-- Task-derived transformation entries (utils.py lines 98-119). -/
def taskTransformations (data_format : String) (tasks : List String) :
    List TransformSpec :=
  if data_format = "dl1dh" then
    (if "particletype" ∈ tasks then
      [⟨"ShowerPrimaryID", none, none,
        some [("name", PVal.str "particletype"),
              ("particle_id_col_name", PVal.str "shower_primary_id")]⟩]
     else []) ++
    (if "energy" ∈ tasks then
      [⟨"MCEnergy", none, none,
        some [("energy_col_name", PVal.str "mc_energy")]⟩]
     else []) ++
    (if "direction" ∈ tasks then
      [⟨"AltAz", none, none,
        some [("alt_col_name", PVal.str "alt"),
              ("az_col_name", PVal.str "az"),
              ("deg2rad", PVal.bool false)]⟩]
     else [])
  else
    (if "particletype" ∈ tasks then
      [⟨"ShowerPrimaryID", none, none, none⟩] else []) ++
    (if "energy" ∈ tasks then
      [⟨"MCEnergy", none, none, none⟩] else []) ++
    (if "direction" ∈ tasks then
      [⟨"DeltaAltAz_fix_subarray", none, none, none⟩] else [])

/-- The file-list resolution step of `setup_DL1DataReader` (lines 44-71).
In train/load_only mode a string `file_list` is read as a newline-delimited
file and replaced by the parsed list, then a non-list raises ValueError.
Otherwise the entry of `prediction_file_lists` at `prediction_label` is
consulted: a `.txt` entry is parsed from the file system, a `.h5` entry
becomes a one-element list, and otherwise a non-list `file_list` raises. -/
def resolveFileList (fs : String → Option (List String)) (mode : String)
    (data : DataConfig) (pred : Option PredictionConfig) :
    Except PyError DataConfig :=
  if mode = "train" ∨ mode = "load_only" then
    match data.file_list with
    | none => Except.error (PyError.keyError "file_list")
    | some (FileListVal.str s) =>
      match fs s with
      | none => Except.error (PyError.fileNotFoundError s)
      | some lines =>
        Except.ok { data with
          file_list := some (FileListVal.list (parseFileListLines lines)) }
    | some (FileListVal.list _) => Except.ok data
    | some FileListVal.other => Except.error PyError.valueError
  else
    match pred with
    | none => Except.error (PyError.keyError "Prediction")
    | some p =>
      match p.prediction_file_lists.lookup p.prediction_label with
      | none => Except.error (PyError.keyError p.prediction_label)
      | some file_list =>
        if pyEndsWith file_list ".txt" then
          match fs file_list with
          | none => Except.error (PyError.fileNotFoundError file_list)
          | some lines =>
            Except.ok { data with
              file_list := some (FileListVal.list (parseFileListLines lines)) }
        else if pyEndsWith file_list ".h5" then
          Except.ok { data with
            file_list := some (FileListVal.list [file_list]) }
        else
          match data.file_list with
          | some (FileListVal.list _) => Except.ok data
          | some _ => Except.error PyError.valueError
          | none => Except.error (PyError.keyError "file_list")

/-- Iterating `config['Data'].get('event_selection', {})` (lines 83, 91):
an absent key iterates nothing; a list of spec dicts yields the specs; an
already-parsed table would make the `{'module': ..., **s}` unpacking raise. -/
def specsOfSelection : Option SelectionVal → Except PyError (List FilterSpec)
  | some (SelectionVal.specs l) => Except.ok l
  | some (SelectionVal.table _) => Except.error PyError.typeError
  | none => Except.ok []

/-- Iterating `config['Data'].get('transforms', {})` (line 124). -/
def specsOfTransforms : Option TransformsVal → Except PyError (List TransformSpec)
  | some (TransformsVal.specs l) => Except.ok l
  | some (TransformsVal.objs _) => Except.error PyError.typeError
  | none => Except.ok []

/-- Lines 80-95: in `dl1dh` format both selection lists are loaded and
rebuilt as dicts mapping loaded functions to their params; in any other
format the config is untouched by this step. -/
def applySelections (env : ImportEnv) (data_format : String)
    (sysPath : List String) (data : DataConfig) :
    Except PyError (DataConfig × List String) :=
  if data_format = "dl1dh" then
    match specsOfSelection data.event_selection with
    | Except.error e => Except.error e
    | Except.ok esSpecs =>
      match loadFilters env sysPath esSpecs [] with
      | Except.error e => Except.error e
      | Except.ok (esTable, sysPath1) =>
        match specsOfSelection data.image_selection with
        | Except.error e => Except.error e
        | Except.ok isSpecs =>
          match loadFilters env sysPath1 isSpecs [] with
          | Except.error e => Except.error e
          | Except.ok (isTable, sysPath2) =>
            Except.ok ({ data with
              event_selection := some (SelectionVal.table esTable),
              image_selection := some (SelectionVal.table isTable) }, sysPath2)
  else
    Except.ok (data, sysPath)

/-- Shallow embedding of `setup_DL1DataReader(config, mode)` (utils.py lines
43-154).  `env` models the import machinery, `fs` the file system (path to
file lines), `sysPath` the current `sys.path`.  Returns the final
`config['Data']` together with the final `sys.path`. -/
def setup_DL1DataReader (env : ImportEnv) (fs : String → Option (List String))
    (sysPath : List String) (config : Config) (mode : String) :
    Except PyError (DataConfig × List String) :=
  match resolveFileList fs mode config.Data config.Prediction with
  | Except.error e => Except.error e
  | Except.ok data0 =>
    let data_format := config.Data_format.getD "stage1"
    let allow_overwrite := data0.allow_overwrite.getD true
    match data0.allow_overwrite with
    | none => Except.error (PyError.keyError "allow_overwrite")
    | some _ =>
      let data1 : DataConfig := { data0 with allow_overwrite := none }
      match config.Tasks with
      | none => Except.error (PyError.keyError "Tasks")
      | some tasks =>
        match applySelections env data_format sysPath data1 with
        | Except.error e => Except.error e
        | Except.ok (data2, sysPath2) =>
          let event_info := taskEventInfo data_format tasks
          let step : Except PyError (DataConfig × List TransformSpec) :=
            if allow_overwrite then
              Except.ok ({ data2 with event_info := some event_info },
                taskTransformations data_format tasks)
            else
              match specsOfTransforms data2.transforms with
              | Except.error e => Except.error e
              | Except.ok userTs => Except.ok (data2, userTs)
          match step with
          | Except.error e => Except.error e
          | Except.ok (data3, transformations) =>
            match loadTransforms env sysPath2 transformations [] with
            | Except.error e => Except.error e
            | Except.ok (transforms, sysPath3) =>
              let data4 : DataConfig :=
                { data3 with transforms := some (TransformsVal.objs transforms) }
              let data5 : DataConfig :=
                match data4.mapping_settings with
                | none => data4
                | some ms =>
                  match ms.interpolation_image_shape with
                  | none => data4
                  | some shapes =>
                    { data4 with mapping_settings := some { ms with
                        interpolation_image_shape := some (shapes.map
                          (fun kv => (kv.1, ShapeVal.tuple kv.2.toList))) } }
              if mode = "predict" then
                let pred := config.Prediction.getD ⟨[], "", none⟩
                if pred.save_identifiers.getD false then
                  let data6 : DataConfig := { data5 with
                    event_info := some ((data5.event_info.getD []) ++
                      ["event_id", "obs_id"]) }
                  match data6.mode with
                  | none => Except.error (PyError.keyError "mode")
                  | some m =>
                    if m = "mono" then
                      Except.ok ({ data6 with
                        array_info := some ((data6.array_info.getD []) ++
                          ["id"]) }, sysPath3)
                    else
                      Except.ok (data6, sysPath3)
                else
                  Except.ok (data5, sysPath3)
              else
                Except.ok (data5, sysPath3)

/-- A benign `config['Data']` used to instantiate the theorems. -/
def baseData : DataConfig :=
  { file_list := some (FileListVal.list []),
    allow_overwrite := some true,
    event_selection := none,
    image_selection := none,
    event_info := none,
    array_info := none,
    transforms := none,
    mapping_settings := none,
    mode := some "stereo" }

/-- A benign top-level config used to instantiate the theorems. -/
def baseConfig : Config :=
  { Data := baseData, Data_format := none, Tasks := some [], Prediction := none }

/-- An import environment holding the modules and attributes that the
task-derived transformations need. -/
def stdEnv : ImportEnv :=
  { modules := ["dl1_data_handler.filters", "dl1_data_handler.transforms"],
    attrs := [⟨"dl1_data_handler.transforms", "ShowerPrimaryID"⟩,
              ⟨"dl1_data_handler.transforms", "MCEnergy"⟩,
              ⟨"dl1_data_handler.transforms", "DeltaAltAz_fix_subarray"⟩,
              ⟨"dl1_data_handler.transforms", "AltAz"⟩] }

/-- A file system on which every path reads as an empty file. -/
def emptyFS : String → Option (List String) := fun _ => some []

/-- The key a filter spec loads, after defaulting the module
to `dl1_data_handler.filters`. -/
def filterFn (s : FilterSpec) : Fn := ⟨s.mdl.getD "dl1_data_handler.filters", s.name⟩

/-- The dict entry a filter spec contributes: loaded function to params. -/
def filterEntry (s : FilterSpec) : Fn × Params := (filterFn s, s.args.getD [])

/-- The class a transformation entry loads, after defaulting the module
to `dl1_data_handler.transforms`. -/
def transformFn (t : TransformSpec) : Fn := ⟨t.mdl.getD "dl1_data_handler.transforms", t.name⟩

/-- The instantiated transform a transformation entry contributes. -/
def instTransform (t : TransformSpec) : TransObj := ⟨transformFn t, t.args.getD []⟩

/-- A transformation entry loads successfully in `env` without touching
`sys.path`. -/
def TransformCovered (env : ImportEnv) (t : TransformSpec) : Prop :=
  t.path = none ∧ t.mdl.getD "dl1_data_handler.transforms" ∈ env.modules ∧
    transformFn t ∈ env.attrs

/-- A filter spec loads successfully in `env` without touching `sys.path`. -/
def FilterCovered (env : ImportEnv) (s : FilterSpec) : Prop :=
  s.path = none ∧ s.mdl.getD "dl1_data_handler.filters" ∈ env.modules ∧
    filterFn s ∈ env.attrs

instance (env : ImportEnv) (t : TransformSpec) : Decidable (TransformCovered env t) := by
  unfold TransformCovered; infer_instance

instance (env : ImportEnv) (s : FilterSpec) : Decidable (FilterCovered env s) := by
  unfold FilterCovered; infer_instance

/-- The six transformation entries any task can contribute (lines 98-119). -/
def allTaskTransformSpecs : List TransformSpec :=
  [⟨"ShowerPrimaryID", none, none,
      some [("name", PVal.str "particletype"),
            ("particle_id_col_name", PVal.str "shower_primary_id")]⟩,
   ⟨"MCEnergy", none, none, some [("energy_col_name", PVal.str "mc_energy")]⟩,
   ⟨"AltAz", none, none,
      some [("alt_col_name", PVal.str "alt"), ("az_col_name", PVal.str "az"),
            ("deg2rad", PVal.bool false)]⟩,
   ⟨"ShowerPrimaryID", none, none, none⟩,
   ⟨"MCEnergy", none, none, none⟩,
   ⟨"DeltaAltAz_fix_subarray", none, none, none⟩]

/-- A predict-mode config whose prediction file list resolves to `pred.h5`,
with varying `save_identifiers`, `event_info`, `array_info` and `Data.mode`;
`allow_overwrite` is false so the incoming `event_info` survives. -/
def predConfig (sid : Option Bool) (ei ai : Option (List String)) (m : String) :
    Config :=
  { Data := { baseData with
      allow_overwrite := some false,
      event_info := ei,
      array_info := ai,
      mode := some m },
    Data_format := none,
    Tasks := some [],
    Prediction := some { prediction_file_lists := [("lbl", "pred.h5")],
                         prediction_label := "lbl",
                         save_identifiers := sid } }

lemma taskTransformations_subset (data_format : String) (tasks : List String) :
    ∀ t ∈ taskTransformations data_format tasks, t ∈ allTaskTransformSpecs := by
  intro t ht
  unfold taskTransformations at ht
  split at ht <;> split_ifs at ht <;> simp_all [allTaskTransformSpecs] <;> tauto

lemma stdEnv_covers (t : TransformSpec) (h : t ∈ allTaskTransformSpecs) :
    TransformCovered stdEnv t := by
  fin_cases h <;> decide

lemma loadTransforms_ok (env : ImportEnv) :
    ∀ (ts : List TransformSpec) (sysPath : List String) (acc : List TransObj),
    (∀ t ∈ ts, TransformCovered env t) →
    loadTransforms env sysPath ts acc =
      Except.ok (acc ++ ts.map instTransform, sysPath)
  | [], sysPath, acc, _ => by simp [loadTransforms]
  | t :: rest, sysPath, acc, h => by
    obtain ⟨hp, hm, ha⟩ := h t (List.mem_cons_self t rest)
    have ha2 : (⟨t.mdl.getD "dl1_data_handler.transforms", t.name⟩ : Fn) ∈ env.attrs := ha
    have hrest := fun x hx => h x (List.mem_cons_of_mem t hx)
    have hload : load_from_module env sysPath t.name
        (t.mdl.getD "dl1_data_handler.transforms") t.path t.args =
        Except.ok (⟨t.mdl.getD "dl1_data_handler.transforms", t.name⟩,
          t.args.getD [], sysPath) := by
      rw [hp]; simp [load_from_module, hm, ha2]
    simp only [loadTransforms, hload]
    have hrec := loadTransforms_ok env rest sysPath
      (acc ++ [({ cls := ⟨t.mdl.getD "dl1_data_handler.transforms", t.name⟩,
                  args := t.args.getD [] } : TransObj)]) hrest
    rw [hrec]
    simp [instTransform, transformFn]

lemma dictInsert_of_notMem (d : List (Fn × Params)) (k : Fn) (v : Params)
    (h : k ∉ d.map Prod.fst) : dictInsert d k v = d ++ [(k, v)] := by
  unfold dictInsert
  rw [if_neg]
  simp only [List.any_eq_true, beq_iff_eq, not_exists, not_and]
  intro p hp hk
  exact h (List.mem_map.mpr ⟨p, hp, hk⟩)

lemma loadFilters_ok (env : ImportEnv) :
    ∀ (specs : List FilterSpec) (sysPath : List String) (acc : List (Fn × Params)),
    (∀ s ∈ specs, FilterCovered env s) →
    (acc.map Prod.fst ++ specs.map filterFn).Nodup →
    loadFilters env sysPath specs acc =
      Except.ok (acc ++ specs.map filterEntry, sysPath)
  | [], sysPath, acc, _, _ => by simp [loadFilters]
  | s :: rest, sysPath, acc, h, hnd => by
    obtain ⟨hp, hm, ha⟩ := h s (List.mem_cons_self s rest)
    have hrest := fun x hx => h x (List.mem_cons_of_mem s hx)
    have hnotMem : filterFn s ∉ acc.map Prod.fst := by
      intro hx
      have hdisj := (List.nodup_append.mp hnd).2.2
      exact hdisj hx (by simp [List.mem_cons_self])
    have hnd2 : ((acc ++ [filterEntry s]).map Prod.fst ++ rest.map filterFn).Nodup := by
      have : (acc ++ [filterEntry s]).map Prod.fst ++ rest.map filterFn =
          acc.map Prod.fst ++ (s :: rest).map filterFn := by
        simp [filterEntry]
      rw [this]; exact hnd
    have ha2 : (⟨s.mdl.getD "dl1_data_handler.filters", s.name⟩ : Fn) ∈ env.attrs := ha
    have hload : load_from_module env sysPath s.name
        (s.mdl.getD "dl1_data_handler.filters") s.path s.args =
        Except.ok (⟨s.mdl.getD "dl1_data_handler.filters", s.name⟩,
          s.args.getD [], sysPath) := by
      rw [hp]; simp [load_from_module, hm, ha2]
    have hins : dictInsert acc (⟨s.mdl.getD "dl1_data_handler.filters", s.name⟩ : Fn)
        (s.args.getD []) = acc ++ [filterEntry s] :=
      dictInsert_of_notMem acc _ _ hnotMem
    simp only [loadFilters, hload, hins]
    rw [loadFilters_ok env rest sysPath (acc ++ [filterEntry s]) hrest hnd2]
    simp [filterEntry, filterFn]

/-- C1: the requested tasks determine exactly which labels and transforms
`setup_DL1DataReader` selects.  Outside `dl1dh` format, `particletype`
contributes event-info `true_shower_primary_id` and transform
`ShowerPrimaryID`, `energy` contributes `true_energy` and `MCEnergy`,
`direction` contributes `true_alt` then `true_az` and
`DeltaAltAz_fix_subarray`; in `dl1dh` format the same tasks contribute
`shower_primary_id`/`ShowerPrimaryID` (with its column args),
`mc_energy`/`MCEnergy`, and `alt`,`az`/`AltAz`; an absent task contributes
nothing. -/
theorem setup_tasks_determine_labels_and_transforms (tasks : List String) :
    (setup_DL1DataReader stdEnv emptyFS []
        ({ baseConfig with Tasks := some tasks }) "train" =
      Except.ok ({ baseData with
        allow_overwrite := none,
        event_info := some
          ((if "particletype" ∈ tasks then ["true_shower_primary_id"] else []) ++
           (if "energy" ∈ tasks then ["true_energy"] else []) ++
           (if "direction" ∈ tasks then ["true_alt", "true_az"] else [])),
        transforms := some (TransformsVal.objs
          ((if "particletype" ∈ tasks then
              [⟨⟨"dl1_data_handler.transforms", "ShowerPrimaryID"⟩, []⟩] else []) ++
           (if "energy" ∈ tasks then
              [⟨⟨"dl1_data_handler.transforms", "MCEnergy"⟩, []⟩] else []) ++
           (if "direction" ∈ tasks then
              [⟨⟨"dl1_data_handler.transforms", "DeltaAltAz_fix_subarray"⟩, []⟩]
            else []))) }, [])) ∧
    (setup_DL1DataReader stdEnv emptyFS []
        ({ baseConfig with Data_format := some "dl1dh", Tasks := some tasks })
        "train" =
      Except.ok ({ baseData with
        allow_overwrite := none,
        event_selection := some (SelectionVal.table []),
        image_selection := some (SelectionVal.table []),
        event_info := some
          ((if "particletype" ∈ tasks then ["shower_primary_id"] else []) ++
           (if "energy" ∈ tasks then ["mc_energy"] else []) ++
           (if "direction" ∈ tasks then ["alt", "az"] else [])),
        transforms := some (TransformsVal.objs
          ((if "particletype" ∈ tasks then
              [⟨⟨"dl1_data_handler.transforms", "ShowerPrimaryID"⟩,
                [("name", PVal.str "particletype"),
                 ("particle_id_col_name", PVal.str "shower_primary_id")]⟩] else []) ++
           (if "energy" ∈ tasks then
              [⟨⟨"dl1_data_handler.transforms", "MCEnergy"⟩,
                [("energy_col_name", PVal.str "mc_energy")]⟩] else []) ++
           (if "direction" ∈ tasks then
              [⟨⟨"dl1_data_handler.transforms", "AltAz"⟩,
                [("alt_col_name", PVal.str "alt"), ("az_col_name", PVal.str "az"),
                 ("deg2rad", PVal.bool false)]⟩]
            else []))) }, [])) := by
  constructor <;>
    · by_cases hp : "particletype" ∈ tasks <;> by_cases he : "energy" ∈ tasks <;>
        by_cases hd : "direction" ∈ tasks <;>
        simp [setup_DL1DataReader, resolveFileList, applySelections,
          specsOfSelection, loadFilters, taskEventInfo, taskTransformations,
          loadTransforms, load_from_module, parseFileListLines,
          baseConfig, baseData, stdEnv, emptyFS, hp, he, hd]

/-- C2: in train/load_only mode a string `file_list` is read as a
newline-delimited file and replaced by the list of its stripped lines,
keeping only non-empty lines not starting with a comment marker, in order. -/
theorem setup_train_file_list_from_path (mode : String)
    (hm : mode = "train" ∨ mode = "load_only")
    (path : String) (lines : List String) :
    setup_DL1DataReader stdEnv (fun q => if q = path then some lines else none) []
      ({ baseConfig with
         Data := { baseData with file_list := some (FileListVal.str path) } })
      mode =
    Except.ok ({ baseData with
      file_list := some (FileListVal.list
        ((lines.map pyStrip).filter (fun l => !l.isEmpty && l.front != '#'))),
      allow_overwrite := none,
      event_info := some [],
      transforms := some (TransformsVal.objs []) }, []) := by
  rcases hm with rfl | rfl <;>
    simp [setup_DL1DataReader, resolveFileList, applySelections, taskEventInfo,
      taskTransformations, loadTransforms, load_from_module, parseFileListLines,
      baseConfig, baseData, stdEnv, emptyFS]

theorem setup_train_file_list_from_path_witness :
    setup_DL1DataReader stdEnv
      (fun q => if q = "files.txt" then some [" a.h5", "", "# note", "b.h5 "] else none) []
      ({ baseConfig with
         Data := { baseData with file_list := some (FileListVal.str "files.txt") } })
      "train" =
    Except.ok ({ baseData with
      file_list := some (FileListVal.list ["a.h5", "b.h5"]),
      allow_overwrite := none,
      event_info := some [],
      transforms := some (TransformsVal.objs []) }, []) :=
  (setup_train_file_list_from_path "train" (Or.inl rfl) "files.txt"
    [" a.h5", "", "# note", "b.h5 "]).trans rfl

/-- C3: in train/load_only mode, `setup_DL1DataReader` raises ValueError
exactly when `file_list` is neither a list nor a string; a list or string
value raises no such error. -/
theorem setup_train_file_list_valueError_iff (v : FileListVal) :
    (setup_DL1DataReader stdEnv emptyFS []
        ({ baseConfig with Data := { baseData with file_list := some v } })
        "train" = Except.error PyError.valueError ↔ v = FileListVal.other) ∧
    (setup_DL1DataReader stdEnv emptyFS []
        ({ baseConfig with Data := { baseData with file_list := some v } })
        "load_only" = Except.error PyError.valueError ↔ v = FileListVal.other) := by
  cases v <;>
    simp [setup_DL1DataReader, resolveFileList, applySelections, taskEventInfo,
      taskTransformations, loadTransforms, load_from_module, parseFileListLines,
      baseConfig, baseData, stdEnv, emptyFS]

/-- C7: in predict mode with `save_identifiers` true, the per-event columns
`event_id` and `obs_id` are appended to `event_info` (created empty when
absent), and the per-array column `id` is appended to `array_info` exactly
when `Data.mode` is `mono`; with `save_identifiers` false or absent neither
list changes. -/
theorem setup_predict_save_identifiers (ei ai : Option (List String)) (m : String) :
    (setup_DL1DataReader stdEnv emptyFS [] (predConfig (some true) ei ai m)
        "predict" =
      Except.ok ({ baseData with
        file_list := some (FileListVal.list ["pred.h5"]),
        allow_overwrite := none,
        event_info := some (ei.getD [] ++ ["event_id", "obs_id"]),
        array_info := if m = "mono" then some (ai.getD [] ++ ["id"]) else ai,
        transforms := some (TransformsVal.objs []),
        mode := some m }, [])) ∧
    (setup_DL1DataReader stdEnv emptyFS [] (predConfig (some false) ei ai m)
        "predict" =
      Except.ok ({ baseData with
        file_list := some (FileListVal.list ["pred.h5"]),
        allow_overwrite := none,
        event_info := ei,
        array_info := ai,
        transforms := some (TransformsVal.objs []),
        mode := some m }, [])) ∧
    (setup_DL1DataReader stdEnv emptyFS [] (predConfig none ei ai m)
        "predict" =
      Except.ok ({ baseData with
        file_list := some (FileListVal.list ["pred.h5"]),
        allow_overwrite := none,
        event_info := ei,
        array_info := ai,
        transforms := some (TransformsVal.objs []),
        mode := some m }, [])) := by
  have h1 : pyEndsWith "pred.h5" ".txt" = false := rfl
  have h2 : pyEndsWith "pred.h5" ".h5" = true := rfl
  refine ⟨?_, ?_, ?_⟩ <;> by_cases hm : m = "mono" <;>
    simp [setup_DL1DataReader, resolveFileList, applySelections, taskEventInfo,
      taskTransformations, loadTransforms, load_from_module, specsOfTransforms,
      predConfig, baseConfig, baseData, stdEnv, emptyFS, h1, h2, hm]

/-- C8: when `mapping_settings` has an `interpolation_image_shape` entry,
its value is rebuilt with the same keys in the same order, each value list
converted to the tuple of its elements; other `mapping_settings` entries are
untouched, and an absent key leaves `mapping_settings` unchanged. -/
theorem setup_interpolation_image_shape (shapes : List (String × ShapeVal))
    (oth : List (String × PVal)) :
    (setup_DL1DataReader stdEnv emptyFS []
        ({ baseConfig with
           Data := { baseData with
             mapping_settings := some ⟨some shapes, oth⟩ } })
        "train" =
      Except.ok ({ baseData with
        allow_overwrite := none,
        event_info := some [],
        transforms := some (TransformsVal.objs []),
        mapping_settings := some ⟨some (shapes.map
          (fun kv => (kv.1, ShapeVal.tuple kv.2.toList))), oth⟩ }, [])) ∧
    (setup_DL1DataReader stdEnv emptyFS []
        ({ baseConfig with
           Data := { baseData with
             mapping_settings := some ⟨none, oth⟩ } })
        "train" =
      Except.ok ({ baseData with
        allow_overwrite := none,
        event_info := some [],
        transforms := some (TransformsVal.objs []),
        mapping_settings := some ⟨none, oth⟩ }, [])) :=
  ⟨rfl, rfl⟩

/-- C9: `setup_DL1DataReader` deletes `allow_overwrite` unconditionally after
reading it with a default, so a config without that key raises KeyError
before any task, filter or transform processing, whatever the tasks,
selections, transforms and import environment are. -/
theorem setup_allow_overwrite_keyError (env : ImportEnv)
    (tasks : Option (List String)) (dfo : Option String)
    (es is2 : Option SelectionVal) (tr : Option TransformsVal) :
    setup_DL1DataReader env emptyFS []
      ({ Data := { baseData with
           allow_overwrite := none,
           event_selection := es,
           image_selection := is2,
           transforms := tr },
         Data_format := dfo, Tasks := tasks, Prediction := none }) "train" =
      Except.error (PyError.keyError "allow_overwrite") := rfl

/-- C5: `load_from_module(name, module, path, args)` imports the module,
looks up the attribute on it and returns it together with `params`, where
`params` equals `args` when `args` is not None and the empty dict otherwise;
`path` is appended to `sys.path` exactly when it is not None and not already
present, and `sys.path` is unchanged otherwise. -/
theorem load_from_module_resolves (env : ImportEnv) (sysPath : List String)
    (name mdl : String) (path : Option String) (args : Option Params)
    (hm : mdl ∈ env.modules) (ha : (⟨mdl, name⟩ : Fn) ∈ env.attrs) :
    load_from_module env sysPath name mdl path args =
      Except.ok (⟨mdl, name⟩,
        (match args with
         | some a => a
         | none => ([] : Params)),
        (match path with
         | some p => if p ∈ sysPath then sysPath else sysPath ++ [p]
         | none => sysPath)) := by
  cases args <;> simp [load_from_module, hm, ha]

theorem load_from_module_resolves_witness :
    load_from_module stdEnv ["lib"] "MCEnergy" "dl1_data_handler.transforms"
      (some "/plugins") none =
      Except.ok (⟨"dl1_data_handler.transforms", "MCEnergy"⟩, [],
        ["lib", "/plugins"]) :=
  (load_from_module_resolves stdEnv ["lib"] "MCEnergy"
    "dl1_data_handler.transforms" (some "/plugins") none
    (by decide) (by decide)).trans rfl

/-- C4: in predict mode the file list comes from
`prediction_file_lists[prediction_label]`: a `.txt` entry is parsed as a
newline-delimited file (stripped, non-empty, non-comment lines) into
`file_list`; a `.h5` entry becomes the one-element list containing it; with
any other entry, ValueError is raised exactly when the existing `file_list`
is not already a list. -/
theorem setup_predict_file_list_resolution :
    (∀ (entry : String) (lines : List String), pyEndsWith entry ".txt" = true →
      setup_DL1DataReader stdEnv (fun q => if q = entry then some lines else none)
        [] ({ baseConfig with
              Prediction := some ⟨[("lbl", entry)], "lbl", none⟩ }) "predict" =
      Except.ok ({ baseData with
        file_list := some (FileListVal.list ((lines.map pyStrip).filter
          (fun l => !l.isEmpty && l.front != '#'))),
        allow_overwrite := none,
        event_info := some [],
        transforms := some (TransformsVal.objs []) }, [])) ∧
    (∀ entry : String, pyEndsWith entry ".txt" = false →
      pyEndsWith entry ".h5" = true →
      setup_DL1DataReader stdEnv emptyFS []
        ({ baseConfig with
           Prediction := some ⟨[("lbl", entry)], "lbl", none⟩ }) "predict" =
      Except.ok ({ baseData with
        file_list := some (FileListVal.list [entry]),
        allow_overwrite := none,
        event_info := some [],
        transforms := some (TransformsVal.objs []) }, [])) ∧
    (∀ (entry : String) (v : FileListVal), pyEndsWith entry ".txt" = false →
      pyEndsWith entry ".h5" = false →
      (setup_DL1DataReader stdEnv emptyFS []
        ({ baseConfig with
           Data := { baseData with
             file_list := some v },
           Prediction := some ⟨[("lbl", entry)], "lbl", none⟩ }) "predict" =
        Except.error PyError.valueError ↔ ¬ ∃ l, v = FileListVal.list l)) := by
  refine ⟨?_, ?_, ?_⟩
  · intro entry lines ht
    simp [setup_DL1DataReader, resolveFileList, applySelections, taskEventInfo,
      taskTransformations, loadTransforms, load_from_module, parseFileListLines,
      List.lookup, baseConfig, baseData, stdEnv, ht]
  · intro entry ht hh
    simp [setup_DL1DataReader, resolveFileList, applySelections, taskEventInfo,
      taskTransformations, loadTransforms, load_from_module, List.lookup,
      baseConfig, baseData, stdEnv, emptyFS, ht, hh]
  · intro entry v ht hh
    cases v <;>
      simp [setup_DL1DataReader, resolveFileList, applySelections, taskEventInfo,
        taskTransformations, loadTransforms, load_from_module, List.lookup,
        baseConfig, baseData, stdEnv, emptyFS, ht, hh]

theorem setup_predict_file_list_resolution_witness :
    (setup_DL1DataReader stdEnv
        (fun q => if q = "pl.txt" then some ["a.h5", "# skip", " b.h5"] else none)
        [] ({ baseConfig with
              Prediction := some ⟨[("lbl", "pl.txt")], "lbl", none⟩ }) "predict" =
      Except.ok ({ baseData with
        file_list := some (FileListVal.list ["a.h5", "b.h5"]),
        allow_overwrite := none,
        event_info := some [],
        transforms := some (TransformsVal.objs []) }, [])) ∧
    (setup_DL1DataReader stdEnv emptyFS []
        ({ baseConfig with
           Prediction := some ⟨[("lbl", "one.h5")], "lbl", none⟩ }) "predict" =
      Except.ok ({ baseData with
        file_list := some (FileListVal.list ["one.h5"]),
        allow_overwrite := none,
        event_info := some [],
        transforms := some (TransformsVal.objs []) }, [])) ∧
    (setup_DL1DataReader stdEnv emptyFS []
        ({ baseConfig with
           Data := { baseData with
             file_list := some FileListVal.other },
           Prediction := some ⟨[("lbl", "data.csv")], "lbl", none⟩ }) "predict" =
      Except.error PyError.valueError ↔ ¬ ∃ l, FileListVal.other = FileListVal.list l) :=
  ⟨(setup_predict_file_list_resolution.1 "pl.txt" ["a.h5", "# skip", " b.h5"]
      (by decide)).trans rfl,
   (setup_predict_file_list_resolution.2.1 "one.h5" (by decide) (by decide)).trans rfl,
   setup_predict_file_list_resolution.2.2 "data.csv" FileListVal.other
     (by decide) (by decide)⟩

/-- C6: in `dl1dh` format, every `event_selection` and `image_selection`
entry is loaded by name from the module it names (default
`dl1_data_handler.filters`) and each section is rebuilt as the dict mapping
each loaded filter function to its parameters; every transformation entry is
likewise loaded with default module `dl1_data_handler.transforms`,
instantiated with its args, and appended in order to `transforms`. -/
theorem setup_dl1dh_selections_and_transforms (env : ImportEnv)
    (es iss : List FilterSpec) (ts : List TransformSpec)
    (hes : ∀ s ∈ es, FilterCovered env s)
    (his : ∀ s ∈ iss, FilterCovered env s)
    (hts : ∀ t ∈ ts, TransformCovered env t)
    (hnes : (es.map filterFn).Nodup)
    (hnis : (iss.map filterFn).Nodup) :
    setup_DL1DataReader env emptyFS []
      ({ baseConfig with
         Data := { baseData with
           allow_overwrite := some false,
           event_selection := some (SelectionVal.specs es),
           image_selection := some (SelectionVal.specs iss),
           transforms := some (TransformsVal.specs ts) },
         Data_format := some "dl1dh" }) "train" =
    Except.ok ({ baseData with
      allow_overwrite := none,
      event_selection := some (SelectionVal.table (es.map filterEntry)),
      image_selection := some (SelectionVal.table (iss.map filterEntry)),
      transforms := some (TransformsVal.objs (ts.map instTransform)) }, []) := by
  have h1 := loadFilters_ok env es [] [] hes (by simpa using hnes)
  have h2 := loadFilters_ok env iss [] [] his (by simpa using hnis)
  have h3 := loadTransforms_ok env ts [] [] hts
  simp [setup_DL1DataReader, resolveFileList, applySelections, specsOfSelection,
    specsOfTransforms, baseConfig, baseData, emptyFS, h1, h2, h3]

theorem setup_dl1dh_selections_and_transforms_witness :
    setup_DL1DataReader
      (⟨["dl1_data_handler.filters", "custom.filters",
         "dl1_data_handler.transforms"],
        [⟨"dl1_data_handler.filters", "energy_filter"⟩,
         ⟨"custom.filters", "quality_filter"⟩,
         ⟨"dl1_data_handler.transforms", "NormalizeCharge"⟩]⟩ : ImportEnv)
      emptyFS []
      ({ baseConfig with
         Data := { baseData with
           allow_overwrite := some false,
           event_selection := some (SelectionVal.specs
             [⟨"energy_filter", none, none, some [("min_value", PVal.int 1)]⟩,
              ⟨"quality_filter", some "custom.filters", none, none⟩]),
           image_selection := some (SelectionVal.specs
             [⟨"energy_filter", none, none, none⟩]),
           transforms := some (TransformsVal.specs
             [⟨"NormalizeCharge", none, none, some [("scale", PVal.int 2)]⟩]) },
         Data_format := some "dl1dh" }) "train" =
    Except.ok ({ baseData with
      allow_overwrite := none,
      event_selection := some (SelectionVal.table
        [(⟨"dl1_data_handler.filters", "energy_filter"⟩, [("min_value", PVal.int 1)]),
         (⟨"custom.filters", "quality_filter"⟩, [])]),
      image_selection := some (SelectionVal.table
        [(⟨"dl1_data_handler.filters", "energy_filter"⟩, [])]),
      transforms := some (TransformsVal.objs
        [⟨⟨"dl1_data_handler.transforms", "NormalizeCharge"⟩,
          [("scale", PVal.int 2)]⟩]) }, []) :=
  (setup_dl1dh_selections_and_transforms
    (⟨["dl1_data_handler.filters", "custom.filters",
       "dl1_data_handler.transforms"],
      [⟨"dl1_data_handler.filters", "energy_filter"⟩,
       ⟨"custom.filters", "quality_filter"⟩,
       ⟨"dl1_data_handler.transforms", "NormalizeCharge"⟩]⟩ : ImportEnv)
    [⟨"energy_filter", none, none, some [("min_value", PVal.int 1)]⟩,
     ⟨"quality_filter", some "custom.filters", none, none⟩]
    [⟨"energy_filter", none, none, none⟩]
    [⟨"NormalizeCharge", none, none, some [("scale", PVal.int 2)]⟩]
    (by decide) (by decide) (by decide) (by decide) (by decide)).trans rfl

/-- C10: with `allow_overwrite` false, `event_info` is left unchanged (the
task-derived list is discarded) and the transformations to instantiate come
from the pre-existing `transforms` entry, even in an import environment that
could not load any task-derived transform; regardless of `allow_overwrite`,
`transforms` is replaced by the list of instantiated transform objects. -/
theorem setup_no_overwrite_frame (env : ImportEnv) (ei : Option (List String))
    (tasks : List String) (ts : List TransformSpec)
    (hts : ∀ t ∈ ts, TransformCovered env t) :
    (setup_DL1DataReader env emptyFS []
        ({ baseConfig with
           Data := { baseData with
             allow_overwrite := some false,
             event_info := ei,
             transforms := some (TransformsVal.specs ts) },
           Tasks := some tasks }) "train" =
      Except.ok ({ baseData with
        allow_overwrite := none,
        event_info := ei,
        transforms := some (TransformsVal.objs (ts.map instTransform)) }, [])) ∧
    (∀ tasks2 : List String,
      setup_DL1DataReader stdEnv emptyFS []
        ({ baseConfig with
           Tasks := some tasks2 }) "train" =
      Except.ok ({ baseData with
        allow_overwrite := none,
        event_info := some (taskEventInfo "stage1" tasks2),
        transforms := some (TransformsVal.objs
          ((taskTransformations "stage1" tasks2).map instTransform)) }, [])) := by
  constructor
  · have h3 := loadTransforms_ok env ts [] [] hts
    simp [setup_DL1DataReader, resolveFileList, applySelections,
      specsOfTransforms, baseConfig, baseData, emptyFS, h3]
  · intro tasks2
    have hcov : ∀ t ∈ taskTransformations "stage1" tasks2,
        TransformCovered stdEnv t :=
      fun t ht => stdEnv_covers t (taskTransformations_subset "stage1" tasks2 t ht)
    have h3 := loadTransforms_ok stdEnv (taskTransformations "stage1" tasks2) [] [] hcov
    simp [setup_DL1DataReader, resolveFileList, applySelections,
      baseConfig, baseData, emptyFS, h3]

theorem setup_no_overwrite_frame_witness :
    setup_DL1DataReader (⟨["my.mod"], [⟨"my.mod", "Crop"⟩]⟩ : ImportEnv)
      emptyFS []
      ({ baseConfig with
         Data := { baseData with
           allow_overwrite := some false,
           event_info := some ["width"],
           transforms := some (TransformsVal.specs
             [⟨"Crop", some "my.mod", none, none⟩]) },
         Tasks := some ["energy"] }) "train" =
      Except.ok ({ baseData with
        allow_overwrite := none,
        event_info := some ["width"],
        transforms := some (TransformsVal.objs
          [⟨⟨"my.mod", "Crop"⟩, []⟩]) }, []) :=
  ((setup_no_overwrite_frame (⟨["my.mod"], [⟨"my.mod", "Crop"⟩]⟩ : ImportEnv)
    (some ["width"]) ["energy"] [⟨"Crop", some "my.mod", none, none⟩]
    (by decide)).1).trans rfl
